import Mathlib

/-!
Verification of the CUMULO swath-fusion pipeline (`src/pipeline.py`).

The pipeline orchestrates external collaborators (channel loader, gap
filler, level-2 loader, cloud-mask loader, cloudsat track aligner, tile
sampler).  Collaborator outcomes are inputs of the embedded functions;
the embedding follows the orchestration code of `pipeline.py` statement
by statement.  Numeric tensor entries are an abstract type `α` and the
`np.float16` cast is an abstract elementwise map, since floating-point
values themselves play no role in the orchestration logic.
-/

/-- A 2-d grid: rows of values (numpy axis order (row, col)). -/
abbrev Grid (α : Type) : Type := List (List α)

/-- A 3-d tensor: a list of channel grids (numpy axis order (channel, row, col)). -/
abbrev Tensor (α : Type) : Type := List (List (List α))

/-- Channel count: length of the leading axis. -/
def channelsOf {α : Type} (t : Tensor α) : Nat := t.length

/-- Row count: length of the first channel grid (0 for an empty tensor). -/
def rowsOf {α : Type} : Tensor α → Nat
  | [] => 0
  | g :: _ => g.length

/-- Column count: length of the first row of the first channel grid. -/
def colsOf {α : Type} : Tensor α → Nat
  | [] => 0
  | [] :: _ => 0
  | (r :: _) :: _ => r.length

/-- `np.vstack([a, b, c[None, ]])` of line 88: concatenation along the
channel axis, the 2-d cloud mask promoted to a single channel. -/
def vstack3 {α : Type} (a b : Tensor α) (c : Grid α) : Tensor α := a ++ b ++ [c]

/-- `.astype(np.float16)` of line 88, as an abstract elementwise cast. -/
def astype {α : Type} (f : α → α) (t : Tensor α) : Tensor α :=
  t.map (fun g => g.map (fun row => row.map f))

/-- Python `range(a, b)` as a list of naturals. -/
def pyRange (a b : Nat) : List Nat := List.range' a (b - a)

/-- Lines 44-54 of `pipeline.py`: the usability-tag policy.
`"daylight"` when `len(filled_ch_idx) == 15`, `"night"` when
`filled_ch_idx == list(range(2, 7)) + list(range(8, 15))`, else
`"corrupt"`. -/
def assignTag (filled_ch_idx : List Nat) : String :=
  if filled_ch_idx.length = 15 then "daylight"
  else if filled_ch_idx = pyRange 2 7 ++ pyRange 8 15 then "night"
  else "corrupt"

/-- The tag policy as the spec words it: `daylight` when the filled set
equals all channel indices, `night` when it equals exactly the
non-visible-band indices, else `corrupt`.  Stated for comparison with
`assignTag`, which is the code's policy. -/
def specTagC1 (filled : List Nat) : String :=
  if filled = List.range 15 then "daylight"
  else if filled = [2, 3, 4, 5, 6, 8, 9, 10, 11, 12, 13, 14] then "night"
  else "corrupt"

/-- Python exception values reaching the orchestration code. -/
inductive PyExc where
  | nameError : PyExc
  | attributeError : PyExc
  | typeError : String → PyExc
  | fileExists : String → PyExc
  | valueError : String → PyExc
  | other : String → PyExc
deriving DecidableEq

/-- A Python runtime value, as far as the orchestration observes it:
either a dict (string-keyed, insertion-ordered) or some non-dict value. -/
inductive PVal where
  | str : String → PVal
  | num : Nat → PVal
  | pair : PVal → PVal → PVal
  | dict : List (String × PVal) → PVal

/-- Whether a Python value is a dict (hence has the `update` method). -/
def PVal.isDict : PVal → Bool
  | .dict _ => true
  | _ => false

/-- Set one key of an insertion-ordered dict: replace the value in place
when the key is present, append otherwise (Python `dict.update`
semantics for a single key, keys being unique). -/
def dictSet : List (String × PVal) → String → PVal → List (String × PVal)
  | [], k, v => [(k, v)]
  | (k0, v0) :: t, k, v =>
      if k0 = k then (k, v) :: t else (k0, v0) :: dictSet t k v

/-- Look a key up in an insertion-ordered dict. -/
def dictLookup (d : List (String × PVal)) (k : String) : Option PVal :=
  match d with
  | [] => none
  | (k0, v0) :: t => if k0 = k then some v0 else dictLookup t k

/-- Line 91, `cloudsat_info.update({"width-range": cs_range, "mapping": mapping})`:
succeeds when `cloudsat_info` is a dict, raising `AttributeError` otherwise. -/
def tryUpdate (info cs_range mapping : PVal) : Except PyExc PVal :=
  match info with
  | .dict d => .ok (.dict (dictSet (dictSet d ("width-range") cs_range) "mapping" mapping))
  | _ => .error .attributeError

/-- Observable side effects of the orchestration: console prints,
collaborator invocations, filesystem writes. -/
inductive Effect where
  | print : String → Effect
  | loaderCall : String → Effect
  | write : String → Effect
deriving DecidableEq

/-- Whether an effect is a filesystem write. -/
def Effect.isWrite : Effect → Bool
  | .write _ => true
  | _ => false

/-- Whether an effect is a console print. -/
def Effect.isPrint : Effect → Bool
  | .print _ => true
  | _ => false

/-- Inputs of one `extract_full_swath` run: the basename of the MYD02
file and the outcome of each collaborator call.  `align` is the outcome
of `src.cloudsat.get_cloudsat_mask` (line 76): on success a triple
`(cs_range, mapping, cloudsat_info)`, otherwise the raised exception. -/
structure SwathInputs (α : Type) where
  myd02_basename : String
  np_swath : Tensor α
  filled_ch_idx : List Nat
  l2_channels : Tensor α
  cm : Grid α
  align : Except PyExc (PVal × PVal × PVal)

/-- The four return values of `extract_full_swath` (line 97). -/
structure SwathOutput (α : Type) where
  np_swath : Tensor α
  cloudsat_info : Option PVal
  tag : String
  filename : String

/-- Lines 13-97 of `pipeline.py`, `extract_full_swath`, with collaborator
outcomes supplied as `inp` and `np.float16` as the abstract cast `f16`.
Returns the four results together with the trace of observable side
effects (collaborator invocations and console prints, in program order).
A failed alignment leaves `cs_range`, `mapping` and `cloudsat_info`
unbound, so the `update` of line 91 raises a NameError; together with
the AttributeError of a non-dict `cloudsat_info` it is swallowed by the
bare `except` of line 93, which sets `cloudsat_info = None`. -/
def extract_full_swath {α : Type} (f16 : α → α) (inp : SwathInputs α) (verbose : Nat) :
    SwathOutput α × List Effect :=
  let filename := inp.myd02_basename
  let log1 := if verbose ≠ 0 then [Effect.print ("swath " ++ filename ++ " loaded")] else []
  let log2 := if verbose ≠ 0 then
      [Effect.print ("Interpolation took t s"),
       Effect.print ("Channels filled_ch_idx are now full")] else []
  let tag := assignTag inp.filled_ch_idx
  let log3 := if verbose ≠ 0 then [Effect.print ("Level2 channels loaded")] else []
  let log4 := if verbose ≠ 0 then [Effect.print ("Cloud mask loaded")] else []
  let logAlign :=
    match inp.align with
    | .error _ => [Effect.print ("Could not extract cloudsat track of " ++ filename)]
    | .ok _ => []
  let log5 := if verbose ≠ 0 then [Effect.print ("Cloudsat alignment took t s")] else []
  let fused := astype f16 (vstack3 inp.np_swath inp.l2_channels inp.cm)
  let info : Option PVal :=
    match inp.align with
    | .error _ => none
    | .ok (cs_range, mapping, ci) =>
        match tryUpdate ci cs_range mapping with
        | .ok d => some d
        | .error _ => none
  (⟨fused, info, tag, filename⟩,
   [Effect.loaderCall ("get_swath")] ++ log1 ++
   [Effect.loaderCall ("fill_all_channels")] ++ log2 ++
   [Effect.loaderCall ("get_channels")] ++ log3 ++
   [Effect.loaderCall ("get_cloud_mask")] ++ log4 ++
   [Effect.loaderCall ("get_cloudsat_mask")] ++ logAlign ++ log5)

theorem pyRange_night : pyRange 2 7 ++ pyRange 8 15 = [2, 3, 4, 5, 6, 8, 9, 10, 11, 12, 13, 14] := by
  decide

/-- On any ordered subset of the 15 channel indices, the code's
length-based policy agrees with the spec's set-based policy. -/
theorem assignTag_agrees_specTag (filled : List Nat) (h : filled.Sublist (List.range 15)) :
    assignTag filled = specTagC1 filled := by
  by_cases hlen : filled.length = 15
  · have hfull : filled = List.range 15 := h.eq_of_length (by simpa using hlen)
    simp [assignTag, specTagC1, hlen, hfull]
  · have hne : filled ≠ List.range 15 := by
      intro hc; exact hlen (by simpa using congrArg List.length hc)
    simp [assignTag, specTagC1, hlen, hne, pyRange_night]

/-- The tag returned by `extract_full_swath` is `assignTag` of the
filled-channel index list reported by the gap filler. -/
theorem extract_tag_eq_assignTag {α : Type} (f16 : α → α) (inp : SwathInputs α) (v : Nat) :
    (extract_full_swath f16 inp v).1.tag = assignTag inp.filled_ch_idx := by
  simp only [extract_full_swath]

/-- C1: for every filled-channel index list returned by the gap filler
(an ordered subset of the 15 channel indices, per its contract),
`extract_full_swath` assigns the usability tag by the spec's exact
policy: `daylight` when the filled set is all channel indices, `night`
when it is exactly the non-visible-band indices
`[2, 3, 4, 5, 6, 8, 9, 10, 11, 12, 13, 14]`, else `corrupt`. -/
theorem extract_tag_policy {α : Type} (f16 : α → α) (inp : SwathInputs α) (v : Nat)
    (h : inp.filled_ch_idx.Sublist (List.range 15)) :
    (extract_full_swath f16 inp v).1.tag = specTagC1 inp.filled_ch_idx := by
  rw [extract_tag_eq_assignTag]
  exact assignTag_agrees_specTag inp.filled_ch_idx h

/-- A concrete daylight run: all 15 channels filled, alignment failed. -/
def inpDay : SwathInputs Nat where
  myd02_basename := "MYD02.hdf"
  np_swath := [[[1, 2], [3, 4]], [[5, 6], [7, 8]]]
  filled_ch_idx := List.range 15
  l2_channels := [[[0, 0], [0, 0]]]
  cm := [[1, 0], [0, 1]]
  align := .error (.other ("no overlap"))

theorem extract_tag_policy_witness :
    (extract_full_swath (fun x : Nat => x) inpDay 1).1.tag = specTagC1 (List.range 15) :=
  extract_tag_policy (fun x : Nat => x) inpDay 1 (List.Sublist.refl _)

/-- C5: the usability tag returned by `extract_full_swath` is always one
of `daylight`, `night`, `corrupt`, and depends only on the
filled-channel index list reported by the gap filler: two runs whose
gap fillers report the same list get the same tag, whatever their other
inputs, casts or verbosity. -/
theorem extract_tag_closed_and_pure {α : Type} (f16 g16 : α → α)
    (inp inp2 : SwathInputs α) (v v2 : Nat) :
    ((extract_full_swath f16 inp v).1.tag = "daylight" ∨
     (extract_full_swath f16 inp v).1.tag = "night" ∨
     (extract_full_swath f16 inp v).1.tag = "corrupt") ∧
    (inp.filled_ch_idx = inp2.filled_ch_idx →
      (extract_full_swath f16 inp v).1.tag = (extract_full_swath g16 inp2 v2).1.tag) := by
  constructor
  · rw [extract_tag_eq_assignTag]
    by_cases h1 : inp.filled_ch_idx.length = 15
    · exact Or.inl (by simp [assignTag, h1])
    · by_cases h2 : inp.filled_ch_idx = pyRange 2 7 ++ pyRange 8 15
      · exact Or.inr (Or.inl (by rw [h2]; decide))
      · exact Or.inr (Or.inr (by simp [assignTag, h1, h2]))
  · intro h
    rw [extract_tag_eq_assignTag, extract_tag_eq_assignTag, h]

/-- A concrete night run: visible channels unfilled, alignment succeeded
with one cloudsat variable. -/
def inpNight : SwathInputs Nat where
  myd02_basename := "MYD02A.hdf"
  np_swath := [[[1, 2], [3, 4]]]
  filled_ch_idx := [2, 3, 4, 5, 6, 8, 9, 10, 11, 12, 13, 14]
  l2_channels := [[[0, 0], [0, 0]]]
  cm := [[1, 0], [0, 1]]
  align := .ok (.pair (.num 10) (.num 20), .num 7, .dict [("cloud-type", .num 3)])

/-- The same filled-channel list with every other input different. -/
def inpNight2 : SwathInputs Nat where
  myd02_basename := "MYD02B.hdf"
  np_swath := [[[9]]]
  filled_ch_idx := [2, 3, 4, 5, 6, 8, 9, 10, 11, 12, 13, 14]
  l2_channels := []
  cm := [[0]]
  align := .error .nameError

theorem extract_tag_closed_and_pure_witness :
    ((extract_full_swath (fun x : Nat => x) inpNight 0).1.tag = "daylight" ∨
     (extract_full_swath (fun x : Nat => x) inpNight 0).1.tag = "night" ∨
     (extract_full_swath (fun x : Nat => x) inpNight 0).1.tag = "corrupt") ∧
    (extract_full_swath (fun x : Nat => x) inpNight 0).1.tag =
      (extract_full_swath (fun x : Nat => x + 1) inpNight2 1).1.tag := by
  have h := extract_tag_closed_and_pure (fun x : Nat => x) (fun x => x + 1) inpNight inpNight2 0 1
  exact ⟨h.1, h.2 rfl⟩

/-- C2: when the track aligner raises any exception,
`extract_full_swath` still returns a fused tensor, a tag and the
basename; its metadata output is `none`, and tensor, tag and basename
are identical to those of a run whose alignment succeeds with zero
cloudsat variables (an empty variable-value mapping). -/
theorem extract_alignment_failure_tolerant {α : Type} (f16 : α → α) (inp : SwathInputs α)
    (v : Nat) (e : PyExc) (r m : PVal) (h : inp.align = .error e) :
    (extract_full_swath f16 inp v).1.cloudsat_info = none ∧
    (extract_full_swath f16 inp v).1.np_swath =
      (extract_full_swath f16 { inp with align := .ok (r, m, .dict []) } v).1.np_swath ∧
    (extract_full_swath f16 inp v).1.tag =
      (extract_full_swath f16 { inp with align := .ok (r, m, .dict []) } v).1.tag ∧
    (extract_full_swath f16 inp v).1.filename =
      (extract_full_swath f16 { inp with align := .ok (r, m, .dict []) } v).1.filename := by
  refine ⟨?_, ?_, ?_, ?_⟩ <;> simp [extract_full_swath, h]

theorem extract_alignment_failure_tolerant_witness :
    (extract_full_swath (fun x : Nat => x) inpNight2 1).1.cloudsat_info = none ∧
    (extract_full_swath (fun x : Nat => x) inpNight2 1).1.np_swath =
      (extract_full_swath (fun x : Nat => x)
        { inpNight2 with align := .ok (.num 0, .num 1, .dict []) } 1).1.np_swath ∧
    (extract_full_swath (fun x : Nat => x) inpNight2 1).1.tag =
      (extract_full_swath (fun x : Nat => x)
        { inpNight2 with align := .ok (.num 0, .num 1, .dict []) } 1).1.tag ∧
    (extract_full_swath (fun x : Nat => x) inpNight2 1).1.filename =
      (extract_full_swath (fun x : Nat => x)
        { inpNight2 with align := .ok (.num 0, .num 1, .dict []) } 1).1.filename :=
  extract_alignment_failure_tolerant (fun x : Nat => x) inpNight2 1 .nameError (.num 0) (.num 1) rfl

/-- C3: for a nonempty swath grid, the fused tensor returned by
`extract_full_swath` has channel count = swath channels + level-2
channels + 1 (cloud mask), row and column counts identical to the swath
grid's, and equals the elementwise `float16` cast of the stacked
tensor. -/
theorem extract_fused_shape {α : Type} (f16 : α → α) (inp : SwathInputs α) (v : Nat)
    (h : inp.np_swath ≠ []) :
    channelsOf (extract_full_swath f16 inp v).1.np_swath
      = channelsOf inp.np_swath + channelsOf inp.l2_channels + 1 ∧
    rowsOf (extract_full_swath f16 inp v).1.np_swath = rowsOf inp.np_swath ∧
    colsOf (extract_full_swath f16 inp v).1.np_swath = colsOf inp.np_swath ∧
    (extract_full_swath f16 inp v).1.np_swath
      = astype f16 (vstack3 inp.np_swath inp.l2_channels inp.cm) := by
  have hfused : (extract_full_swath f16 inp v).1.np_swath
      = astype f16 (vstack3 inp.np_swath inp.l2_channels inp.cm) := by
    simp only [extract_full_swath]
  refine ⟨?_, ?_, ?_, hfused⟩
  · rw [hfused]; simp [astype, vstack3, channelsOf]; omega
  · rw [hfused]
    cases hs : inp.np_swath with
    | nil => exact absurd hs h
    | cons g t => simp [astype, vstack3, hs, rowsOf]
  · rw [hfused]
    cases hs : inp.np_swath with
    | nil => exact absurd hs h
    | cons g t =>
      cases g with
      | nil => simp [astype, vstack3, hs, colsOf]
      | cons r rest => simp [astype, vstack3, hs, colsOf]

theorem extract_fused_shape_witness :
    channelsOf (extract_full_swath (fun x : Nat => x) inpDay 0).1.np_swath
      = channelsOf inpDay.np_swath + channelsOf inpDay.l2_channels + 1 ∧
    rowsOf (extract_full_swath (fun x : Nat => x) inpDay 0).1.np_swath = rowsOf inpDay.np_swath ∧
    colsOf (extract_full_swath (fun x : Nat => x) inpDay 0).1.np_swath = colsOf inpDay.np_swath ∧
    (extract_full_swath (fun x : Nat => x) inpDay 0).1.np_swath
      = astype (fun x : Nat => x) (vstack3 inpDay.np_swath inpDay.l2_channels inpDay.cm) :=
  extract_fused_shape (fun x : Nat => x) inpDay 0 (by decide)

theorem dictLookup_dictSet_self (d : List (String × PVal)) (k : String) (v : PVal) :
    dictLookup (dictSet d k v) k = some v := by
  induction d with
  | nil => simp [dictSet, dictLookup]
  | cons p t ih =>
    obtain ⟨k0, v0⟩ := p
    by_cases hk : k0 = k
    · simp [dictSet, hk, dictLookup]
    · simp [dictSet, hk, dictLookup, ih]

theorem dictLookup_dictSet_other (d : List (String × PVal)) (k k2 : String) (v : PVal)
    (h : k ≠ k2) : dictLookup (dictSet d k v) k2 = dictLookup d k2 := by
  induction d with
  | nil => simp [dictSet, dictLookup, h]
  | cons p t ih =>
    obtain ⟨k0, v0⟩ := p
    by_cases hk : k0 = k
    · subst hk; simp [dictSet, dictLookup, h]
    · simp [dictSet, hk, dictLookup, ih]

/-- C6: when alignment returned a record whose variable-value mapping is
a dict, the metadata output is that dict with exactly the two reserved
keys `"width-range"` and `"mapping"` merged in (the two keys map to the
span and the pixel mapping, every other key is unchanged); when the
merge raises — whether because alignment failed with *any* exception,
leaving the record unbound, or because the returned record is not a
dict — the metadata output is `none` and nothing propagates. -/
theorem extract_metadata_merge {α : Type} (f16 : α → α) (inp : SwathInputs α) (v : Nat) :
    (∀ cs_range mapping d, inp.align = .ok (cs_range, mapping, .dict d) →
       (extract_full_swath f16 inp v).1.cloudsat_info
         = some (.dict (dictSet (dictSet d ("width-range") cs_range) "mapping" mapping)) ∧
       dictLookup (dictSet (dictSet d ("width-range") cs_range) "mapping" mapping) "mapping"
         = some mapping ∧
       dictLookup (dictSet (dictSet d ("width-range") cs_range) "mapping" mapping) "width-range"
         = some cs_range ∧
       ∀ k, k ≠ "width-range" → k ≠ "mapping" →
         dictLookup (dictSet (dictSet d ("width-range") cs_range) "mapping" mapping) k
           = dictLookup d k) ∧
    (∀ cs_range mapping ci, inp.align = .ok (cs_range, mapping, ci) → ci.isDict = false →
       (extract_full_swath f16 inp v).1.cloudsat_info = none) ∧
    (∀ e, inp.align = .error e → (extract_full_swath f16 inp v).1.cloudsat_info = none) := by
  refine ⟨?_, ?_, ?_⟩
  · intro cs_range mapping d hok
    refine ⟨by simp [extract_full_swath, hok, tryUpdate], dictLookup_dictSet_self _ _ _, ?_, ?_⟩
    · rw [dictLookup_dictSet_other _ _ _ _ (by decide)]
      exact dictLookup_dictSet_self _ _ _
    · intro k hk1 hk2
      rw [dictLookup_dictSet_other _ _ _ _ (Ne.symm hk2),
          dictLookup_dictSet_other _ _ _ _ (Ne.symm hk1)]
  · intro cs_range mapping ci hok hci
    cases ci <;> simp_all [extract_full_swath, tryUpdate, PVal.isDict]
  · intro e he
    simp [extract_full_swath, he]

/-- Alignment succeeded but handed back a non-dict variable-value record. -/
def inpBadInfo : SwathInputs Nat where
  myd02_basename := "MYD02C.hdf"
  np_swath := [[[1]]]
  filled_ch_idx := [0, 1, 2]
  l2_channels := [[[2]]]
  cm := [[0]]
  align := .ok (.num 0, .num 1, .str ("oops"))

theorem extract_metadata_merge_witness :
    (extract_full_swath (fun x : Nat => x) inpNight 0).1.cloudsat_info
      = some (.dict (dictSet (dictSet [("cloud-type", .num 3)] "width-range"
          (.pair (.num 10) (.num 20))) "mapping" (.num 7))) ∧
    (extract_full_swath (fun x : Nat => x) inpBadInfo 0).1.cloudsat_info = none := by
  have h := extract_metadata_merge (fun x : Nat => x) inpNight 0
  have h2 := extract_metadata_merge (fun x : Nat => x) inpBadInfo 0
  exact ⟨(h.1 _ _ _ rfl).1, h2.2.1 _ _ _ rfl rfl⟩

/-- C9: the verbosity flag has no behavioral effect: the returned
quadruple is identical between `verbose = 0` and `verbose = 1`, and for
every verbosity the effect trace of `extract_full_swath` contains no
filesystem write — only console prints and collaborator invocations. -/
theorem extract_verbose_no_effect {α : Type} (f16 : α → α) (inp : SwathInputs α) :
    (extract_full_swath f16 inp 0).1 = (extract_full_swath f16 inp 1).1 ∧
    ∀ v : Nat, ((extract_full_swath f16 inp v).2.all (fun ef => !ef.isWrite)) = true := by
  constructor
  · rfl
  · intro v
    cases halign : inp.align <;>
      by_cases hv : v = 0 <;>
        simp [extract_full_swath, halign, hv, Effect.isWrite]

/-- The four collections returned by
`src.tile_extraction.sample_labelled_and_unlabelled_tiles` (line 138). -/
structure TileBatches where
  label_tiles : List PVal
  nonlabel_tiles : List PVal
  label_metadata : List PVal
  nonlabel_metadata : List PVal

/-- How one tile-driver invocation ends: `exit(0)` of line 142
terminates the whole process with the given status, otherwise the
function returns normally to its caller. -/
inductive TileOutcome where
  | processExit : Nat → TileOutcome
  | completed : TileOutcome
deriving DecidableEq

/-- Result of one `extract_tiles_from_swath` invocation: how it ended,
the tile count printed by the line-145 diagnostic (`none` when not
printed), and the effect trace. -/
structure TileRunResult where
  outcome : TileOutcome
  reported : Option Nat
  trace : List Effect

/-- Lines 135-163 of `pipeline.py`, `extract_tiles_from_swath`, with the
sampler outcome supplied as `sample` (the requested tile size is folded
into that outcome: too small a tensor makes the sampler raise
`ValueError`).  On `ValueError` the driver prints the error and calls
`exit(0)` before any directory creation or `np.save`; on success it
prints the combined count when `verbose > 0` and writes the four `.npy`
files. -/
def extract_tiles_from_swath (sample : Except String TileBatches)
    (swath_name save_dir : String) (verbose : Nat) : TileRunResult :=
  match sample with
  | .error e =>
      ⟨.processExit 0, none,
       [Effect.loaderCall ("sample_labelled_and_unlabelled_tiles"),
        Effect.print ("Tiles failed to extract. " ++ e)]⟩
  | .ok b =>
      let count := b.label_tiles.length + b.nonlabel_tiles.length
      let reportLog := if 0 < verbose then
          [Effect.print (toString count ++ " tiles extracted from swath " ++ swath_name)]
        else []
      let filename_npy := swath_name.replace (".hdf") (".npy")
      ⟨.completed, if 0 < verbose then some count else none,
       [Effect.loaderCall ("sample_labelled_and_unlabelled_tiles")] ++ reportLog ++
       [Effect.write (save_dir ++ "/label/tiles/" ++ filename_npy),
        Effect.write (save_dir ++ "/label/metadata/" ++ filename_npy),
        Effect.write (save_dir ++ "/nonlabel/tiles/" ++ filename_npy),
        Effect.write (save_dir ++ "/nonlabel/metadata/" ++ filename_npy)]⟩

/-- C7: when the sampler signals a value error, the tile driver reports
it on the console and terminates the invocation (taking the whole
process down), and its effect trace holds no filesystem write — no
partial tile output reaches the disk. -/
theorem tiles_valueerror_no_partial_output (msg swath_name save_dir : String) (v : Nat) :
    (extract_tiles_from_swath (.error msg) swath_name save_dir v).outcome
      = TileOutcome.processExit 0 ∧
    Effect.print ("Tiles failed to extract. " ++ msg)
      ∈ (extract_tiles_from_swath (.error msg) swath_name save_dir v).trace ∧
    ((extract_tiles_from_swath (.error msg) swath_name save_dir v).trace.all
      (fun ef => !ef.isWrite)) = true := by
  refine ⟨rfl, ?_, rfl⟩
  simp [extract_tiles_from_swath]

/-- C8: on every successful sampling run with the diagnostic enabled,
the total tile count the driver reports is exactly the number of
labelled tiles plus the number of unlabelled tiles. -/
theorem tiles_reported_count (b : TileBatches) (swath_name save_dir : String) (v : Nat)
    (hv : 0 < v) :
    (extract_tiles_from_swath (.ok b) swath_name save_dir v).reported
      = some (b.label_tiles.length + b.nonlabel_tiles.length) := by
  simp [extract_tiles_from_swath, hv]

/-- A concrete sampler success: two labelled and one unlabelled tile. -/
def tileB : TileBatches where
  label_tiles := [.num 1, .num 2]
  nonlabel_tiles := [.num 3]
  label_metadata := [.num 0, .num 0]
  nonlabel_metadata := [.num 0]

theorem tiles_reported_count_witness :
    (extract_tiles_from_swath (.ok tileB) ("S.hdf") ("out") 1).reported
      = some (tileB.label_tiles.length + tileB.nonlabel_tiles.length) :=
  tiles_reported_count tileB ("S.hdf") ("out") 1 (by decide)

/-- C10: a sampler `ValueError` makes `extract_tiles_from_swath`
terminate the whole process through `exit(0)`: the exit status is 0,
the success status, and the function never returns normally to its
caller — the failure is invisible to the caller through return value,
exception or exit status. -/
theorem tiles_valueerror_exits_with_status_zero (msg swath_name save_dir : String) (v : Nat) :
    (extract_tiles_from_swath (.error msg) swath_name save_dir v).outcome
      = TileOutcome.processExit 0 ∧
    (extract_tiles_from_swath (.error msg) swath_name save_dir v).outcome
      ≠ TileOutcome.completed := by
  exact ⟨rfl, by simp [extract_tiles_from_swath]⟩

/-- Line 194: the canonical time-derived output filename,
`"A{}.{}.{}{}.nc".format(year, abs_day, hour, minute)`.  The four time
components come from `get_file_time_info` (in `src/utils`, not part of
the staged sources); modelled from the spec as the primary product's
embedded acquisition time, passed in as abstract strings. -/
def canonical_save_name (year abs_day hour minute : String) : String :=
  "A" ++ year ++ "." ++ abs_day ++ "." ++ hour ++ minute ++ ".nc"

/-- Result of the `__main__` hook: the exception it ends with (if any),
the set of output-root files afterwards, and its effect trace. -/
structure MainResult where
  exc : Option PyExc
  fs : List String
  trace : List Effect

/-- Lines 175-218 of `pipeline.py`, the `__main__` hook, over an
abstract output root `fs` listing the basenames of the files below
`save_dir` (any depth, as `Path(save_dir).rglob` searches).  After
computing the canonical name, line 197's `rglob` loop raises
`FileExistsError` on the first match, before any loader or collaborator
runs.  When there is no match, the call of line 207 passes the keyword
arguments `save_dir` and `save`, which `extract_full_swath` (line 13)
does not accept, so Python raises `TypeError` at the call — also before
any loader body runs and before any write. -/
def pymain (fs : List String) (year abs_day hour minute : String) : MainResult :=
  let save_name := canonical_save_name year abs_day hour minute
  if save_name ∈ fs then
    ⟨some (.fileExists (save_name ++ " already exist. Not extracting it again.")), fs, []⟩
  else
    ⟨some (.typeError ("extract_full_swath got an unexpected keyword argument")), fs, []⟩

/-- C4: when the canonical time-derived output filename already exists
anywhere under the output root, the `__main__` hook raises
`FileExistsError` with no loader invocation and no write in its trace,
and the files under the output root are exactly what they were. -/
theorem main_duplicate_fails_before_loaders (fs : List String)
    (year abs_day hour minute : String)
    (h : canonical_save_name year abs_day hour minute ∈ fs) :
    (pymain fs year abs_day hour minute).exc
      = some (.fileExists (canonical_save_name year abs_day hour minute
          ++ " already exist. Not extracting it again.")) ∧
    (pymain fs year abs_day hour minute).fs = fs ∧
    (pymain fs year abs_day hour minute).trace = [] := by
  refine ⟨?_, ?_, ?_⟩ <;> simp [pymain, h]

theorem main_duplicate_fails_before_loaders_witness :
    (pymain [canonical_save_name ("2008") ("001") ("0000") ("")] ("2008") ("001") ("0000") ("")).exc
      = some (.fileExists (canonical_save_name ("2008") ("001") ("0000") ("")
          ++ " already exist. Not extracting it again.")) ∧
    (pymain [canonical_save_name ("2008") ("001") ("0000") ("")] ("2008") ("001") ("0000") ("")).fs
      = [canonical_save_name ("2008") ("001") ("0000") ("")] ∧
    (pymain [canonical_save_name ("2008") ("001") ("0000") ("")] ("2008") ("001") ("0000") ("")).trace
      = [] :=
  main_duplicate_fails_before_loaders
    [canonical_save_name ("2008") ("001") ("0000") ("")] ("2008") ("001") ("0000") ("")
    (List.mem_singleton.mpr rfl)
